import Mathlib

/-!
Shallow embedding of the retrieval-augmented-generation core of the
`university-ai-assistant` repository, and proofs checking its
natural-language specification against the code.

Embedded components (each definition is a direct translation of the named
Python source):

* `chunkLoopF`, `chunk_document`   — `scripts/04_build_knowledge_base.py`,
  `KnowledgeBaseBuilder.chunk_document` (the `while` loop is modelled with a
  fuel parameter: `none` means the loop has not terminated within `fuel`
  iterations).
* `prepare_one`, `prepare_documents_for_vectorstore` —
  `KnowledgeBaseBuilder.prepare_documents_for_vectorstore`.
* `_calculate_relevance_score` — `src/rag/retriever.py`,
  `DocumentRetriever._calculate_relevance_score` (floats modelled as exact
  rationals; `round(x, 3)` modelled as rounding `1000*x` to an integer).
* `enhance`, `retrieve`, `format_context`, `retrieve_with_context` —
  `DocumentRetriever.retrieve` / `retrieve_with_context`; the embedding +
  ChromaDB query is abstracted as an oracle argument.
* `vs_search` — `src/rag/vector_store.py`, `VectorStore.search` (top-k
  resolution and where-clause construction; the actual ANN query is the
  oracle).
* `generate_response` — `src/llm/api_manager.py`,
  `LLMAPIManager.generate_response` (network calls abstracted as
  `CallOutcome` values; the mutable `self.stats` dict is threaded
  explicitly).
-/

namespace UniAI

namespace Config

/-- `Config.CHUNK_SIZE` default from `src/config.py` (`int(os.getenv("CHUNK_SIZE", "800"))`). -/
def CHUNK_SIZE : Int := 800

/-- `Config.CHUNK_OVERLAP` default from `src/config.py`. -/
def CHUNK_OVERLAP : Int := 100

/-- `Config.TOP_K_RESULTS` default from `src/config.py`. -/
def TOP_K_RESULTS : Int := 5

/-- `Config.GROQ_MODEL` default from `src/config.py`. -/
def GROQ_MODEL : String := "llama-3.1-70b-versatile"

/-- `Config.OPENAI_MODEL` default from `src/config.py`. -/
def OPENAI_MODEL : String := "gpt-4o-mini"

end Config

/-- Python `x or d` for an optional integer argument: both `None` and `0`
are falsy, so `chunk_size = chunk_size or Config.CHUNK_SIZE` replaces
`None` and `0` (but nothing else) by the default. -/
def pyOrInt (x : Option Int) (d : Int) : Int :=
  match x with
  | none => d
  | some v => if v = 0 then d else v

/-- The whitespace characters stripped by Python `str.strip()` (the ASCII
ones; the repository's documents are modelled over this alphabet). -/
def isPySpace (c : Char) : Bool :=
  c = ' ' || c = '\t' || c = '\n' || c = '\r' || c = '\x0b' || c = '\x0c'

/-- Python `s.strip()` on a character list: remove leading and trailing
whitespace. -/
def pyStrip (s : List Char) : List Char :=
  ((s.dropWhile isPySpace).reverse.dropWhile isPySpace).reverse

/-- Resolve a Python slice endpoint against a sequence length: negative
indices count from the end, and everything is clamped into `[0, len]`. -/
def pyIdx (len : Nat) (i : Int) : Nat :=
  if i < 0 then (max (i + len) 0).toNat else min i.toNat len

/-- Python `s[a:b]`. -/
def pySlice (s : List Char) (a b : Int) : List Char :=
  (s.take (pyIdx s.length b)).drop (pyIdx s.length a)

/-- The `while start < len(content)` loop of
`KnowledgeBaseBuilder.chunk_document`, with explicit fuel: one unit of fuel
is consumed per loop-condition check, and `none` means the loop did not
terminate within `fuel` iterations.  Loop body (verbatim from the source):
`end = start + chunk_size; chunk = content[start:end];
if chunk.strip(): chunks.append(chunk.strip()); start = end - overlap`. -/
def chunkLoopF (fuel : Nat) (content : List Char) (chunk_size overlap : Int)
    (start : Int) : Option (List (List Char)) :=
  match fuel with
  | 0 => none
  | fuel + 1 =>
    if start < (content.length : Int) then
      let endI := start + chunk_size
      let chunk := pySlice content start endI
      let stripped := pyStrip chunk
      match chunkLoopF fuel content chunk_size overlap (endI - overlap) with
      | none => none
      | some rest => some (if stripped.isEmpty then rest else stripped :: rest)
    else
      some []

/-- `KnowledgeBaseBuilder.chunk_document(content, chunk_size, overlap)`:
resolve the falsy-defaulted parameters, then run the chunking loop from
`start = 0`.  Fuel `content.length + 1` is sufficient whenever the loop
advances (`overlap < chunk_size`), since each iteration moves `start` by at
least one; `none` reports a non-terminating configuration. -/
def chunk_document (content : List Char) (chunk_size overlap : Option Int) :
    Option (List (List Char)) :=
  let cs := pyOrInt chunk_size Config.CHUNK_SIZE
  let ov := pyOrInt overlap Config.CHUNK_OVERLAP
  chunkLoopF (content.length + 1) content cs ov 0

/-- Concatenation of the chunks' portions beyond the `ov`-character overlap
with their predecessor: the first chunk whole, every later chunk minus its
first `ov` characters. -/
def dropAll (ov : Nat) (chunks : List (List Char)) : List Char :=
  (chunks.map (List.drop ov)).flatten

/-- The "non-overlapping portions" concatenation used by the chunk-coverage
property: first chunk whole, each subsequent chunk without the first `ov`
characters. -/
def dropOverlaps (ov : Nat) (chunks : List (List Char)) : List Char :=
  match chunks with
  | [] => []
  | c :: rest => c ++ dropAll ov rest

example : chunk_document ['a', ' ', 'b'] (some 2) (some 1) =
    some [['a'], ['b'], ['b']] := by decide

example : chunk_document (List.replicate 10 'A') (some 8) (some 1) =
    some [List.replicate 8 'A', List.replicate 3 'A'] := by decide

/-- A raw document record fed to the knowledge-base builder: `content`, a
`metadata` dict (association list, first binding wins on lookup), and the
optional top-level fields the builder merges in
(`url/title/faculty/source_type/department`). -/
structure RawDoc where
  content : List Char
  metadata : List (String × String)
  url : Option String := none
  title : Option String := none
  faculty : Option String := none
  source_type : Option String := none
  department : Option String := none
deriving DecidableEq, Repr

/-- Python dict assignment `m[k] = v`: overwrite the binding if the key is
present, otherwise append a new binding. -/
def dictSet (m : List (String × String)) (k v : String) :
    List (String × String) :=
  if (m.lookup k).isSome then
    m.map (fun p => if p.1 = k then (k, v) else p)
  else
    m ++ [(k, v)]

/-- The top-level field of a `RawDoc` for one of the five merged keys
(`None` for any other key). -/
def topField (doc : RawDoc) (k : String) : Option String :=
  if k = "url" then doc.url
  else if k = "title" then doc.title
  else if k = "faculty" then doc.faculty
  else if k = "source_type" then doc.source_type
  else if k = "department" then doc.department
  else none

/-- One step of the merge loop in `prepare_documents_for_vectorstore`:
`if key in doc and key not in metadata: metadata[key] = doc[key]`. -/
def mergeKey (doc : RawDoc) (m : List (String × String)) (k : String) :
    List (String × String) :=
  match topField doc k with
  | none => m
  | some v => if (m.lookup k).isSome then m else dictSet m k v

/-- The loop `for key in ['url', 'title', 'faculty', 'source_type',
'department']:` merging top-level fields into a metadata dict. -/
def mergeTopLevel (doc : RawDoc) (m : List (String × String)) :
    List (String × String) :=
  ["url", "title", "faculty", "source_type", "department"].foldl
    (mergeKey doc) m

/-- A prepared document as appended to `prepared_docs`. -/
structure PreparedDoc where
  content : List Char
  metadata : List (String × String)
deriving DecidableEq, Repr

/-- The per-document body of
`KnowledgeBaseBuilder.prepare_documents_for_vectorstore`: skip documents
that are empty or whose stripped content is under 100 characters; store
short documents (`len(content) < Config.CHUNK_SIZE`) whole with merged
metadata; chunk long documents via `chunk_document` (called with default
`chunk_size`/`overlap`), tagging each chunk with string-valued
`chunk_index` and `total_chunks` before the top-level merge.  With the
default configuration the chunking loop always terminates, so the `getD []`
for an out-of-fuel result is never exercised (`chunk_document_default_isSome`
below). -/
def prepare_one (doc : RawDoc) : List PreparedDoc :=
  if doc.content = [] ∨ (pyStrip doc.content).length < 100 then
    []
  else if (doc.content.length : Int) < Config.CHUNK_SIZE then
    [{ content := doc.content, metadata := mergeTopLevel doc doc.metadata }]
  else
    let chunks := (chunk_document doc.content none none).getD []
    chunks.enum.map (fun p =>
      let metadata := dictSet (dictSet doc.metadata "chunk_index"
        (toString p.1)) "total_chunks" (toString chunks.length)
      { content := p.2, metadata := mergeTopLevel doc metadata })

/-- `KnowledgeBaseBuilder.prepare_documents_for_vectorstore`: the outer
`for doc in documents` loop accumulating `prepared_docs`. -/
def prepare_documents_for_vectorstore (docs : List RawDoc) :
    List PreparedDoc :=
  docs.flatMap prepare_one

/-- Python `round(q, 3)` over exact rationals: round `1000 * q` to the
nearest integer and divide back. -/
def round3 (q : ℚ) : ℚ :=
  (round (q * 1000) : ℚ) / 1000

/-- `DocumentRetriever._calculate_relevance_score`:
`distance = result.get('distance', 1.0); relevance = max(0, 1 - distance/2);
return round(relevance, 3)`. -/
def _calculate_relevance_score (distance : Option ℚ) : ℚ :=
  let d := distance.getD 1
  round3 (max 0 (1 - d / 2))

/-- A raw search result as returned by `VectorStore.search` (the `distance`
key may be absent). -/
structure SearchResult where
  document : String
  metadata : List (String × String)
  distance : Option ℚ
deriving DecidableEq, Repr

/-- An enhanced result built by the loop in `DocumentRetriever.retrieve`. -/
structure RetrievedDoc where
  rank : Nat
  content : String
  metadata : List (String × String)
  distance : ℚ
  relevance_score : ℚ
deriving DecidableEq, Repr

/-- The enhancement loop of `DocumentRetriever.retrieve` (lines 61-70):
1-based rank, `distance` defaulted to `0` for display, relevance score from
`_calculate_relevance_score`. -/
def enhance (results : List SearchResult) : List RetrievedDoc :=
  results.enum.map (fun p =>
    { rank := p.1 + 1
      content := p.2.document
      metadata := p.2.metadata
      distance := p.2.distance.getD 0
      relevance_score := _calculate_relevance_score p.2.distance })

/-- Python string truthiness for an optional string argument: `None` and
`""` are falsy. -/
def pyTruthyStr (s : Option String) : Bool :=
  match s with
  | none => false
  | some v => v ≠ ""

/-- The filter-construction block of `DocumentRetriever.retrieve`:
`filters = {}; if faculty: filters['faculty'] = faculty;
if source_type: filters['source_type'] = source_type`. -/
def buildFilters (faculty source_type : Option String) :
    List (String × String) :=
  (if pyTruthyStr faculty then [("faculty", faculty.getD "")] else []) ++
    (if pyTruthyStr source_type then [("source_type", source_type.getD "")]
     else [])

/-- The type of the external nearest-neighbour query (embedding generation
plus `collection.query`): query text, `n_results`, optional where-clause →
results.  The ChromaDB backend is outside the repository, so it is a
parameter of the embedding. -/
def SearchOracle : Type :=
  String → Int → Option (List (String × String)) → List SearchResult

/-- `VectorStore.search`: resolve the falsy-defaulted `top_k`
(`top_k = top_k or Config.TOP_K_RESULTS`), build the where-clause
(`where = None; if filters: where = filters` — an empty dict is falsy), and
delegate to the backend. -/
def vs_search (oracle : SearchOracle) (query : String) (top_k : Option Int)
    (filters : Option (List (String × String))) : List SearchResult :=
  let tk := pyOrInt top_k Config.TOP_K_RESULTS
  let w : Option (List (String × String)) :=
    match filters with
    | none => none
    | some fl => if fl.isEmpty then none else some fl
  oracle query tk w

/-- `DocumentRetriever.retrieve`: resolve `top_k`, build the filter dict,
pass `filters if filters else None` to `VectorStore.search`, and enhance
the results. -/
def retrieve (oracle : SearchOracle) (query : String) (top_k : Option Int)
    (faculty source_type : Option String) : List RetrievedDoc :=
  let tk := pyOrInt top_k Config.TOP_K_RESULTS
  let filters := buildFilters faculty source_type
  enhance (vs_search oracle query (some tk)
    (if filters.isEmpty then none else some filters))

/-- A per-source summary entry of `retrieve_with_context`. -/
structure SourceInfo where
  id : Nat
  title : String
  url : String
  faculty : String
  source_type : String
  relevance_score : ℚ
deriving DecidableEq, Repr

/-- The context/sources record returned by `retrieve_with_context`. -/
structure RetrievalContext where
  context : String
  sources : List SourceInfo
  num_sources : Nat
deriving DecidableEq, Repr

/-- The `source_info` dict built for the i-th result (1-based `i`) in
`retrieve_with_context`. -/
def sourceInfo (i : Nat) (r : RetrievedDoc) : SourceInfo :=
  { id := i
    title := (r.metadata.lookup "title").getD "Untitled"
    url := (r.metadata.lookup "url").getD ""
    faculty := (r.metadata.lookup "faculty").getD ""
    source_type := (r.metadata.lookup "source_type").getD ""
    relevance_score := r.relevance_score }

/-- The context entry built for the i-th result (1-based `i`):
`f"[Source {i}]\n{content}\n"`. -/
def contextEntry (i : Nat) (content : String) : String :=
  "[Source " ++ toString i ++ "]" ++ "\n" ++ content ++ "\n"

/-- The formatting loop of `DocumentRetriever.retrieve_with_context`
(lines 110-142): build `context_parts` and `sources` by enumerating the
results from 1, then join the parts with `"\n\n"`. -/
def format_context (results : List RetrievedDoc) : RetrievalContext :=
  let context_parts := results.enum.map
    (fun p => contextEntry (p.1 + 1) p.2.content)
  let sources := results.enum.map (fun p => sourceInfo (p.1 + 1) p.2)
  { context := String.intercalate "\n\n" context_parts
    sources := sources
    num_sources := sources.length }

/-- `DocumentRetriever.retrieve_with_context(query, top_k, faculty)`:
retrieve (no `source_type` filter) and format. -/
def retrieve_with_context (oracle : SearchOracle) (query : String)
    (top_k : Option Int) (faculty : Option String) : RetrievalContext :=
  format_context (retrieve oracle query top_k faculty none)

/-- The outcome of one network call to an LLM provider: either a completion
(content plus token usage) or a raised exception. -/
inductive CallOutcome where
  | ok (content : String) (prompt_tokens completion_tokens total_tokens : Nat)
  | err (msg : String)
deriving DecidableEq, Repr

/-- The response envelope built by `_call_groq` / `_call_openai`. -/
structure LLMResponse where
  content : String
  model : String
  provider : String
  prompt_tokens : Nat
  completion_tokens : Nat
  total_tokens : Nat
deriving DecidableEq, Repr

/-- The `self.stats` counters of `LLMAPIManager`. -/
structure APIStats where
  groq_calls : Nat
  openai_calls : Nat
  groq_errors : Nat
  openai_errors : Nat
deriving DecidableEq, Repr

/-- `LLMAPIManager._call_groq`: wrap the provider outcome in the groq
response envelope (`provider: 'groq'`, `model: Config.GROQ_MODEL`), or
propagate the exception. -/
def _call_groq (outcome : CallOutcome) : Except String LLMResponse :=
  match outcome with
  | .ok c pt ct tt => .ok
      { content := c, model := Config.GROQ_MODEL, provider := "groq"
        prompt_tokens := pt, completion_tokens := ct, total_tokens := tt }
  | .err m => .error m

/-- `LLMAPIManager._call_openai`: wrap the provider outcome in the openai
response envelope (`provider: 'openai'`, `model: Config.OPENAI_MODEL`). -/
def _call_openai (outcome : CallOutcome) : Except String LLMResponse :=
  match outcome with
  | .ok c pt ct tt => .ok
      { content := c, model := Config.OPENAI_MODEL, provider := "openai"
        prompt_tokens := pt, completion_tokens := ct, total_tokens := tt }
  | .err m => .error m

/-- The OpenAI-fallback block of `LLMAPIManager.generate_response`
(lines 84-95): try OpenAI if configured, incrementing `openai_calls` on
success and `openai_errors` then re-raising on failure; with no client,
raise `RuntimeError("No LLM API available")`. -/
def tryOpenai (openai_client : Option CallOutcome) (stats : APIStats) :
    Except String LLMResponse × APIStats :=
  match openai_client with
  | some outcome =>
    match _call_openai outcome with
    | .ok resp => (.ok resp, { stats with openai_calls := stats.openai_calls + 1 })
    | .error e => (.error e, { stats with openai_errors := stats.openai_errors + 1 })
  | none => (.error "No LLM API available", stats)

/-- `LLMAPIManager.generate_response`: try Groq first if configured
(incrementing `groq_calls` on success, `groq_errors` on failure); on a Groq
failure re-raise immediately when `use_fallback` is false, otherwise fall
through to the OpenAI block.  Each client is modelled as `None`
(unconfigured) or the outcome its next call would produce; the mutated
`self.stats` is returned alongside the result. -/
def generate_response (groq_client openai_client : Option CallOutcome)
    (use_fallback : Bool) (stats : APIStats) :
    Except String LLMResponse × APIStats :=
  match groq_client with
  | some outcome =>
    match _call_groq outcome with
    | .ok resp => (.ok resp, { stats with groq_calls := stats.groq_calls + 1 })
    | .error e =>
      let stats1 := { stats with groq_errors := stats.groq_errors + 1 }
      if use_fallback then tryOpenai openai_client stats1
      else (.error e, stats1)
  | none => tryOpenai openai_client stats

/-- The sequence of raw windows `content[s : s + cs]`, `content[s + step :
s + step + cs]`, … taken by the chunking loop from position `s` (guarded by
`0 < step` so the recursion is well founded); when no window is changed or
discarded by trimming, the loop's chunks are exactly these windows. -/
def windows (content : List Char) (cs step : Nat) (s : Nat) :
    List (List Char) :=
  if _h : 0 < step ∧ s < content.length then
    ((content.drop s).take cs) :: windows content cs step (s + step)
  else []
termination_by content.length - s
decreasing_by
  simp_wf
  omega

/-- Default `SourceInfo` used only as the `getD` fallback in statements. -/
def dummySource : SourceInfo :=
  { id := 0, title := "", url := "", faculty := "", source_type := ""
    relevance_score := 0 }

/-- Default `RetrievedDoc` used only as the `getD` fallback in statements. -/
def dummyDoc : RetrievedDoc :=
  { rank := 0, content := "", metadata := [], distance := 0
    relevance_score := 0 }

/-- Concrete short document used by the C8 witness: 120 characters, an
existing `title` metadata key, and top-level `title` and `faculty`
fields. -/
def w8doc : RawDoc :=
  { content := List.replicate 120 'a'
    metadata := [("title", "Existing")]
    title := some "New"
    faculty := some "FTS" }

/-! ### Supporting lemmas -/

lemma chunkLoopF_nonadvancing (content : List Char) (cs ov : Int)
    (h : cs ≤ ov) :
    ∀ (fuel : Nat) (start : Int), start < (content.length : Int) →
      chunkLoopF fuel content cs ov start = none := by
  intro fuel
  induction fuel with
  | zero => intro start h2; rfl
  | succ n ih =>
    intro start h2
    have hrec : chunkLoopF n content cs ov (start + cs - ov) = none :=
      ih _ (by omega)
    simp [chunkLoopF, h2, hrec]

/-! ### Claim theorems -/

/-- C2 (code_bug evidence): with `overlap >= chunk_size` the chunking loop
of `chunk_document` never terminates on any non-empty content — for every
amount of fuel the loop is still running — instead of raising a
configuration error as the specification requires. -/
theorem chunk_overlap_ge_size_never_terminates (cs ov : Int) (hle : cs ≤ ov)
    (content : List Char) (hc : content ≠ []) (fuel : Nat) :
    chunkLoopF fuel content cs ov 0 = none := by
  have hlen : 0 < content.length := List.length_pos.mpr hc
  exact chunkLoopF_nonadvancing content cs ov hle fuel 0 (by exact_mod_cast hlen)

/-- Witness for C2: the concrete configuration `chunk_size = 800`,
`overlap = 800` on the one-character document `"A"` is still looping after
9 iterations. -/
theorem chunk_overlap_ge_size_witness :
    (800 : Int) ≤ 800 ∧ (['A'] : List Char) ≠ [] ∧
      chunkLoopF 9 ['A'] 800 800 0 = none :=
  ⟨by decide, by decide,
    chunk_overlap_ge_size_never_terminates 800 800 (by decide) ['A']
      (by decide) 9⟩

/-- C3 (counterexample): with the primary (Groq) client configured to fail
and the fallback (OpenAI) client configured to succeed, `generate_response`
does return the fallback's response and performs exactly one primary-error
and one fallback-call increment, but the response's `provider` field is the
literal string `"openai"`, not `"fallback"`. -/
theorem fallback_provider_string_counterexample :
    (generate_response (some (.err "boom")) (some (.ok "answer" 1 2 3)) true
        ⟨0, 0, 0, 0⟩).1 =
      Except.ok { content := "answer"
                  model := Config.OPENAI_MODEL
                  provider := "openai"
                  prompt_tokens := 1
                  completion_tokens := 2
                  total_tokens := 3 } ∧
    (generate_response (some (.err "boom")) (some (.ok "answer" 1 2 3)) true
        ⟨0, 0, 0, 0⟩).2 = ⟨0, 1, 1, 0⟩ ∧
    "openai" ≠ "fallback" := ⟨rfl, rfl, by decide⟩

/-- C3 (amended): when the primary (Groq) client is configured and fails
and the fallback (OpenAI) client is configured and succeeds, with
`use_fallback = true`, `generate_response` returns the fallback's response
with `provider == "openai"` (the fallback provider), increments
`groq_errors` and `openai_calls` by exactly one each, and leaves
`groq_calls` and `openai_errors` unchanged. -/
theorem fallback_success (e c : String) (pt ct tt : Nat) (stats : APIStats) :
    (generate_response (some (.err e)) (some (.ok c pt ct tt)) true stats).1 =
      Except.ok { content := c
                  model := Config.OPENAI_MODEL
                  provider := "openai"
                  prompt_tokens := pt
                  completion_tokens := ct
                  total_tokens := tt } ∧
    (generate_response (some (.err e)) (some (.ok c pt ct tt)) true
        stats).2.groq_errors = stats.groq_errors + 1 ∧
    (generate_response (some (.err e)) (some (.ok c pt ct tt)) true
        stats).2.openai_calls = stats.openai_calls + 1 ∧
    (generate_response (some (.err e)) (some (.ok c pt ct tt)) true
        stats).2.groq_calls = stats.groq_calls ∧
    (generate_response (some (.err e)) (some (.ok c pt ct tt)) true
        stats).2.openai_errors = stats.openai_errors :=
  ⟨rfl, rfl, rfl, rfl, rfl⟩

/-- C4: for every present, non-negative distance `d` the retriever's
relevance score is `max(0, 1 - d/2)` rounded to 3 decimals, and that value
lies in `[0, 1]`. -/
theorem relevance_score_spec (d : ℚ) (h : 0 ≤ d) :
    _calculate_relevance_score (some d) = round3 (max 0 (1 - d / 2)) ∧
    0 ≤ _calculate_relevance_score (some d) ∧
    _calculate_relevance_score (some d) ≤ 1 := by
  have hmono : ∀ a b : ℚ, a ≤ b → round a ≤ round b := by
    intro a b hab
    rw [round_eq, round_eq]
    exact Int.floor_le_floor (by linarith)
  have hx0 : (0 : ℚ) ≤ max 0 (1 - d / 2) := le_max_left 0 _
  have hx1 : max 0 (1 - d / 2) ≤ 1 := max_le (by norm_num) (by linarith)
  have h0 : (0 : ℤ) ≤ round (max 0 (1 - d / 2) * 1000) := by
    have := hmono 0 (max 0 (1 - d / 2) * 1000) (by nlinarith)
    simpa using this
  have h1 : round (max 0 (1 - d / 2) * 1000) ≤ 1000 := by
    have e : round ((1000 : ℚ)) = (1000 : ℤ) := by
      rw [show ((1000 : ℚ)) = ((1000 : ℤ) : ℚ) by norm_num, round_intCast]
    have := hmono (max 0 (1 - d / 2) * 1000) 1000 (by nlinarith)
    rwa [e] at this
  refine ⟨rfl, ?_, ?_⟩
  · show (0 : ℚ) ≤ round3 (max 0 (1 - d / 2))
    unfold round3
    exact div_nonneg (by exact_mod_cast h0) (by norm_num)
  · show round3 (max 0 (1 - d / 2)) ≤ 1
    unfold round3
    rw [div_le_one (by norm_num)]
    exact_mod_cast h1

/-- Witness for C4: the relevance-score contract instantiated at the
concrete distance `3`. -/
theorem relevance_score_witness :
    _calculate_relevance_score (some 3) = round3 (max 0 (1 - 3 / 2)) ∧
    0 ≤ _calculate_relevance_score (some 3) ∧
    _calculate_relevance_score (some 3) ≤ 1 :=
  relevance_score_spec 3 (by norm_num)

set_option maxRecDepth 40000 in
/-- C6: preparing the document `{content: "A"*1000, metadata:
{faculty: "FTS"}}` under the default configuration
(`chunk_size = 800`, `overlap = 100`) produces exactly two chunks: chunk 0
is characters `[0, 800)`, chunk 1 is characters `[700, 1000)`, and both
carry `faculty = "FTS"` together with string-valued `chunk_index`
(`"0"`/`"1"`) and `total_chunks = "2"`. -/
theorem chunk_roundtrip_example :
    prepare_documents_for_vectorstore
      [{ content := List.replicate 1000 'A', metadata := [("faculty", "FTS")] }] =
      [{ content := (List.replicate 1000 'A').take 800,
         metadata := [("faculty", "FTS"), ("chunk_index", "0"),
           ("total_chunks", "2")] },
       { content := (List.replicate 1000 'A').drop 700,
         metadata := [("faculty", "FTS"), ("chunk_index", "1"),
           ("total_chunks", "2")] }] := by decide

/-- C7: when the underlying search returns zero results,
`retrieve_with_context` returns an empty context string and an empty
sources list (and, being a total function, does not raise). -/
theorem empty_results_safe (q : String) (tk : Option Int)
    (f : Option String) :
    retrieve_with_context (fun _ _ _ => []) q tk f =
      { context := "", sources := [], num_sources := 0 } := rfl

/-- C10: passing the empty string as `faculty` (or as `source_type`) to
`retrieve` builds no filter for that field: the search is identical to the
one performed with `None`, and the built filter dict is the same. -/
theorem empty_string_filter_unrestricted (oracle : SearchOracle) (q : String)
    (tk : Option Int) (f st : Option String) :
    retrieve oracle q tk (some "") st = retrieve oracle q tk none st ∧
    retrieve oracle q tk f (some "") = retrieve oracle q tk f none ∧
    buildFilters (some "") st = buildFilters none st ∧
    buildFilters f (some "") = buildFilters f none := by
  have h1 : buildFilters (some "") st = buildFilters none st := by
    simp [buildFilters, pyTruthyStr]
  have h2 : buildFilters f (some "") = buildFilters f none := by
    simp [buildFilters, pyTruthyStr]
  refine ⟨?_, ?_, h1, h2⟩
  · simp [retrieve, h1]
  · simp [retrieve, h2]

/-- C9: a falsy `top_k` (`0` or `None`) passed to `retrieve` is replaced by
the configured default `TOP_K_RESULTS = 5`: the search performed with
`top_k = 0` is identical to the one performed with `top_k = None`, the
backend is queried with `n_results = TOP_K_RESULTS`, and (whenever the
backend honours its `n_results` bound) at most `TOP_K_RESULTS` results come
back rather than zero. -/
theorem topk_zero_defaults (oracle : SearchOracle) (q : String)
    (f st : Option String)
    (hb : ∀ q n w, (oracle q n w).length ≤ n.toNat) :
    retrieve oracle q (some 0) f st = retrieve oracle q none f st ∧
    retrieve oracle q (some 0) f st =
      enhance (oracle q Config.TOP_K_RESULTS
        (if (buildFilters f st).isEmpty then none
         else some (buildFilters f st))) ∧
    (retrieve oracle q (some 0) f st).length ≤ 5 := by
  have hlen : ∀ rs : List SearchResult, (enhance rs).length = rs.length := by
    intro rs
    simp [enhance]
  have h2 : retrieve oracle q (some 0) f st =
      enhance (oracle q Config.TOP_K_RESULTS
        (if (buildFilters f st).isEmpty then none
         else some (buildFilters f st))) := by
    by_cases hf : (buildFilters f st).isEmpty <;>
      simp [retrieve, vs_search, pyOrInt, hf]
  refine ⟨by simp [retrieve, pyOrInt], h2, ?_⟩
  rw [h2, hlen]
  exact le_trans (hb q Config.TOP_K_RESULTS _)
    (by norm_num [Config.TOP_K_RESULTS])

/-- Witness for C9: against a backend returning no results, `retrieve` with
`top_k = 0` returns at most the five default results. -/
theorem topk_zero_witness :
    (retrieve (fun _ _ _ => ([] : List SearchResult)) "x" (some 0)
      none none).length ≤ 5 :=
  (topk_zero_defaults (fun _ _ _ => []) "x" none none
    (fun _ _ _ => Nat.zero_le _)).2.2

/-- C5: for every retrieval result list, `retrieve_with_context`'s
formatting produces one source entry per result with `sources[j].id =
j + 1` (contiguous 1-based numbering), the source entry summarises exactly
`results[j]`, and the context is the `"\n\n"`-join of the entries whose
`j`-th element is the marker `[Source j+1]` followed by exactly the content
of `results[j]`. -/
theorem citation_alignment (results : List RetrievedDoc) (j : Nat)
    (h : j < results.length) :
    (format_context results).sources.length = results.length ∧
    (format_context results).sources.getD j dummySource =
      sourceInfo (j + 1) (results.getD j dummyDoc) ∧
    ((format_context results).sources.getD j dummySource).id = j + 1 ∧
    (format_context results).context = String.intercalate "\n\n"
      (results.enum.map fun p => contextEntry (p.1 + 1) p.2.content) ∧
    (results.enum.map fun p => contextEntry (p.1 + 1) p.2.content).getD j ""
      = contextEntry (j + 1) (results.getD j dummyDoc).content := by
  have hj : results[j]? = some (results.getD j dummyDoc) := by
    rw [List.getD_eq_getElem?_getD, List.getElem?_eq_getElem h]
    rfl
  have hsget : (format_context results).sources =
      results.enum.map (fun p => sourceInfo (p.1 + 1) p.2) := rfl
  have hfmt : ((format_context results).sources)[j]? =
      some (sourceInfo (j + 1) (results.getD j dummyDoc)) := by
    rw [hsget, List.getElem?_map, List.getElem?_enum, hj]
    rfl
  have hsrc : (format_context results).sources.getD j dummySource =
      sourceInfo (j + 1) (results.getD j dummyDoc) := by
    rw [List.getD_eq_getElem?_getD, hfmt]
    rfl
  have hctx : (results.enum.map fun p =>
      contextEntry (p.1 + 1) p.2.content)[j]? =
      some (contextEntry (j + 1) (results.getD j dummyDoc).content) := by
    rw [List.getElem?_map, List.getElem?_enum, hj]
    rfl
  refine ⟨?_, hsrc, ?_, rfl, ?_⟩
  · rw [hsget]
    simp
  · rw [hsrc]
    rfl
  · rw [List.getD_eq_getElem?_getD, hctx]
    rfl

/-- Witness for C5: the citation-alignment contract instantiated at a
concrete one-element result list and index 0. -/
theorem citation_alignment_witness :
    0 < ([dummyDoc] : List RetrievedDoc).length ∧
    ((format_context [dummyDoc]).sources.length = [dummyDoc].length ∧
     (format_context [dummyDoc]).sources.getD 0 dummySource =
       sourceInfo (0 + 1) ([dummyDoc].getD 0 dummyDoc) ∧
     ((format_context [dummyDoc]).sources.getD 0 dummySource).id = 0 + 1 ∧
     (format_context [dummyDoc]).context = String.intercalate "\n\n"
       ([dummyDoc].enum.map fun p => contextEntry (p.1 + 1) p.2.content) ∧
     ([dummyDoc].enum.map fun p => contextEntry (p.1 + 1) p.2.content).getD
       0 "" = contextEntry (0 + 1) ([dummyDoc].getD 0 dummyDoc).content) :=
  ⟨by decide, citation_alignment [dummyDoc] 0 (by decide)⟩

lemma lookup_append (l1 l2 : List (String × String)) (k : String) :
    (l1 ++ l2).lookup k = ((l1.lookup k).orElse (fun _ => l2.lookup k)) := by
  induction l1 with
  | nil => simp [List.lookup]
  | cons a l ih =>
    obtain ⟨ka, va⟩ := a
    by_cases hk : k = ka
    · subst hk
      simp [List.lookup]
    · have hbeq : (k == ka) = false := beq_false_of_ne hk
      simp [List.lookup, hbeq, ih]

lemma lookup_dictSet_fresh (m : List (String × String)) (k v k' : String)
    (h : m.lookup k = none) :
    (dictSet m k v).lookup k' = if k' = k then some v else m.lookup k' := by
  unfold dictSet
  rw [h]
  simp only [Option.isSome_none, Bool.false_eq_true, if_false]
  rw [lookup_append]
  by_cases hk : k' = k
  · subst hk
    rw [h]
    simp [List.lookup]
  · have hbeq : (k' == k) = false := beq_false_of_ne hk
    simp [List.lookup, hbeq, hk]

lemma lookup_mergeKey (doc : RawDoc) (m : List (String × String))
    (kq k : String) :
    (mergeKey doc m kq).lookup k =
      if k = kq then (m.lookup kq).orElse (fun _ => topField doc kq)
      else m.lookup k := by
  unfold mergeKey
  cases htf : topField doc kq with
  | none =>
    by_cases hk : k = kq
    · subst hk
      simp
    · simp [hk]
  | some v =>
    cases hml : m.lookup kq with
    | some w =>
      simp only [Option.isSome_some, if_true]
      by_cases hk : k = kq
      · subst hk
        simp [hml]
      · simp [hk]
    | none =>
      simp only [Option.isSome_none, Bool.false_eq_true, if_false]
      rw [lookup_dictSet_fresh _ _ _ _ hml]
      by_cases hk : k = kq
      · subst hk
        simp
      · simp [hk]

lemma lookup_mergeTopLevel (doc : RawDoc) (m : List (String × String))
    (k : String) :
    (mergeTopLevel doc m).lookup k =
      ((m.lookup k).orElse (fun _ => topField doc k)) := by
  simp only [mergeTopLevel, List.foldl, lookup_mergeKey]
  by_cases h1 : k = "url" <;> by_cases h2 : k = "title" <;>
    by_cases h3 : k = "faculty" <;> by_cases h4 : k = "source_type" <;>
    by_cases h5 : k = "department" <;>
    simp_all [topField]

/-- C8: a document whose stripped content is at least 100 characters and
whose length is below `CHUNK_SIZE` is stored whole — a single prepared
record with the original content and no `chunk_index`/`total_chunks` keys
added — and its metadata is the original metadata with the top-level fields
`url/title/faculty/source_type/department` merged in only where the key was
absent (existing metadata keys win: the merged lookup is
`metadata.lookup k` or-else the top-level field). -/
theorem short_docs_stored_whole (doc : RawDoc) (k : String)
    (h1 : 100 ≤ (pyStrip doc.content).length)
    (h2 : (doc.content.length : Int) < Config.CHUNK_SIZE) :
    prepare_documents_for_vectorstore [doc] =
      [{ content := doc.content
         metadata := mergeTopLevel doc doc.metadata }] ∧
    (mergeTopLevel doc doc.metadata).lookup k =
      ((doc.metadata.lookup k).orElse (fun _ => topField doc k)) ∧
    topField doc "chunk_index" = none ∧
    topField doc "total_chunks" = none := by
  have hne : ¬(doc.content = [] ∨ (pyStrip doc.content).length < 100) := by
    push_neg
    constructor
    · intro hc
      rw [hc] at h1
      norm_num [pyStrip] at h1
    · omega
  refine ⟨?_, lookup_mergeTopLevel doc doc.metadata k, ?_, ?_⟩
  · simp [prepare_documents_for_vectorstore, prepare_one, hne, h2]
  · simp [topField]
  · simp [topField]

/-- Witness for C8: the short-document contract instantiated at `w8doc`
and the conflicting key `"title"`. -/
theorem short_docs_witness :
    100 ≤ (pyStrip w8doc.content).length ∧
    (w8doc.content.length : Int) < Config.CHUNK_SIZE ∧
    (prepare_documents_for_vectorstore [w8doc] =
      [{ content := w8doc.content
         metadata := mergeTopLevel w8doc w8doc.metadata }] ∧
     (mergeTopLevel w8doc w8doc.metadata).lookup "title" =
       ((w8doc.metadata.lookup "title").orElse
         (fun _ => topField w8doc "title")) ∧
     topField w8doc "chunk_index" = none ∧
     topField w8doc "total_chunks" = none) :=
  ⟨by decide, by decide,
    short_docs_stored_whole w8doc "title" (by decide) (by decide)⟩

lemma dropWhile_eq_self_of_not (p : Char → Bool) (l : List Char)
    (h : ∀ c ∈ l, p c = false) : l.dropWhile p = l := by
  cases l with
  | nil => rfl
  | cons a l => simp [List.dropWhile_cons, h a (by simp)]

lemma pyStrip_eq_self (l : List Char)
    (h : ∀ c ∈ l, isPySpace c = false) : pyStrip l = l := by
  unfold pyStrip
  rw [dropWhile_eq_self_of_not _ _ h]
  rw [dropWhile_eq_self_of_not _ _ (fun c hc => h c (List.mem_reverse.mp hc))]
  exact List.reverse_reverse l

lemma pyIdx_natCast (len n : Nat) : pyIdx len (n : Int) = min n len := by
  simp [pyIdx]

lemma pySlice_natCast (l : List Char) (s cs : Nat) :
    pySlice l (s : Int) ((s : Int) + (cs : Int)) = (l.drop s).take cs := by
  have hb : ((s : Int) + (cs : Int)) = ((s + cs : Nat) : Int) := by
    push_cast
    ring
  rw [pySlice, hb, pyIdx_natCast, pyIdx_natCast]
  rcases le_or_lt s l.length with hs | hs
  · rw [min_eq_left hs]
    have ht : l.take (min (s + cs) l.length) = l.take (s + cs) :=
      List.take_eq_take.mpr (by omega)
    rw [ht, List.drop_take]
    congr 1
    omega
  · rw [min_eq_right hs.le]
    have h1 : (l.take (min (s + cs) l.length)).drop l.length = [] :=
      List.drop_eq_nil_of_le (by simp)
    have h2 : l.drop s = [] := List.drop_eq_nil_of_le hs.le
    rw [h1, h2, List.take_nil]

lemma chunkLoopF_eq_windows (content : List Char) (cs ov : Nat)
    (hov : ov < cs) (hw : ∀ c ∈ content, isPySpace c = false) :
    ∀ (fuel s : Nat), content.length - s < fuel →
      chunkLoopF fuel content (cs : Int) (ov : Int) (s : Int) =
        some (windows content cs (cs - ov) s) := by
  intro fuel
  induction fuel with
  | zero =>
    intro s h
    omega
  | succ n ih =>
    intro s h
    by_cases hs : s < content.length
    · have hslt : ((s : Int)) < ((content.length : Int)) := by exact_mod_cast hs
      have hmem : ∀ c ∈ (content.drop s).take cs, isPySpace c = false :=
        fun c hc => hw c (List.mem_of_mem_drop (List.mem_of_mem_take hc))
      have hnil : (content.drop s).take cs ≠ [] := by
        rw [Ne, List.take_eq_nil_iff]
        push_neg
        refine ⟨by omega, ?_⟩
        rw [Ne, List.drop_eq_nil_iff]
        omega
      have hne : ((content.drop s).take cs).isEmpty = false := by
        cases hcl : (content.drop s).take cs with
        | nil => exact absurd hcl hnil
        | cons a l => rfl
      have harith : ((s : Int)) + cs - ov = (((s + (cs - ov)) : Nat) : Int) := by
        push_cast
        omega
      have hrec := ih (s + (cs - ov)) (by omega)
      have hwin : windows content cs (cs - ov) s =
          ((content.drop s).take cs) ::
            windows content cs (cs - ov) (s + (cs - ov)) := by
        rw [windows, dif_pos ⟨by omega, hs⟩]
      simp only [chunkLoopF]
      rw [if_pos hslt, pySlice_natCast, pyStrip_eq_self _ hmem, harith, hrec]
      simp [hne, hwin]
    · have hsge : ¬(((s : Int)) < ((content.length : Int))) := by
        exact_mod_cast hs
      have hwin : windows content cs (cs - ov) s = [] := by
        rw [windows, dif_neg (by omega)]
      simp only [chunkLoopF]
      rw [if_neg hsge, hwin]

lemma dropAll_windows (content : List Char) (cs ov : Nat) (hov : ov < cs) :
    ∀ (b s : Nat), content.length - s ≤ b →
      dropAll ov (windows content cs (cs - ov) s) =
        content.drop (s + ov) := by
  intro b
  induction b with
  | zero =>
    intro s h
    have hs : ¬(0 < cs - ov ∧ s < content.length) := by omega
    rw [windows, dif_neg hs,
      List.drop_eq_nil_of_le (show content.length ≤ s + ov by omega)]
    rfl
  | succ b ih =>
    intro s h
    by_cases hs : s < content.length
    · rw [windows, dif_pos ⟨by omega, hs⟩]
      have hcons : dropAll ov (((content.drop s).take cs) ::
          windows content cs (cs - ov) (s + (cs - ov))) =
          (((content.drop s).take cs).drop ov) ++
            dropAll ov (windows content cs (cs - ov) (s + (cs - ov))) := by
        simp [dropAll]
      rw [hcons, ih (s + (cs - ov)) (by omega), List.drop_take,
        List.drop_drop]
      have hidx : content.drop (s + (cs - ov) + ov) =
          (content.drop (s + ov)).drop (cs - ov) := by
        rw [List.drop_drop]
        congr 1
        omega
      rw [hidx]
      exact List.take_append_drop (cs - ov) (content.drop (s + ov))
    · rw [windows, dif_neg (by omega),
        List.drop_eq_nil_of_le (show content.length ≤ s + ov by omega)]
      rfl

/-- C1 (counterexample): on the document `"a b"` with `chunk_size = 2` and
`overlap = 1` (so `len(content) ≥ chunk_size` and `overlap < chunk_size`),
the chunking loop trims each window, producing chunks `["a", "b", "b"]`
whose non-overlapping portions concatenate to `"a"`, not to the original
`"a b"`: the space is dropped outside any overlap region. -/
theorem chunk_coverage_counterexample :
    (2 : Int) ≤ (['a', ' ', 'b'] : List Char).length ∧ (1 : Int) < 2 ∧
    chunk_document ['a', ' ', 'b'] (some 2) (some 1) =
      some [['a'], ['b'], ['b']] ∧
    dropOverlaps 1 [['a'], ['b'], ['b']] ≠ ['a', ' ', 'b'] := by decide

/-- C1 (amended): for content containing no whitespace characters (so
per-window trimming is the identity and no window is discarded), with
`len(content) ≥ chunk_size` and `0 < overlap < chunk_size` (a zero
`overlap` argument would be replaced by the configured default),
concatenating the chunks' non-overlapping portions — each chunk beyond the
`overlap` characters shared with its predecessor — reconstructs the
original content exactly. -/
theorem chunk_coverage_whitespace_free (content : List Char) (cs ov : Int)
    (h1 : 0 < ov) (h2 : ov < cs) (h3 : cs ≤ (content.length : Int))
    (hw : ∀ c ∈ content, isPySpace c = false) :
    (chunk_document content (some cs) (some ov)).map
      (dropOverlaps ov.toNat) = some content := by
  obtain ⟨csn, rfl⟩ : ∃ n : Nat, cs = (n : Int) :=
    ⟨cs.toNat, (Int.toNat_of_nonneg (by omega)).symm⟩
  obtain ⟨ovn, rfl⟩ : ∃ n : Nat, ov = (n : Int) :=
    ⟨ov.toNat, (Int.toNat_of_nonneg (by omega)).symm⟩
  have hov : ovn < csn := by exact_mod_cast h2
  have h3n : csn ≤ content.length := by exact_mod_cast h3
  have hres : chunk_document content (some (csn : Int)) (some (ovn : Int)) =
      chunkLoopF (content.length + 1) content csn ovn 0 := by
    simp [chunk_document, pyOrInt, show ((csn : Int)) ≠ 0 by omega,
      show ((ovn : Int)) ≠ 0 by omega]
  have h0 := chunkLoopF_eq_windows content csn ovn hov hw
    (content.length + 1) 0 (by omega)
  simp only [Nat.cast_zero] at h0
  rw [hres, h0]
  have hwin0 : windows content csn (csn - ovn) 0 =
      (content.take csn) ::
        windows content csn (csn - ovn) (0 + (csn - ovn)) := by
    rw [windows, dif_pos ⟨by omega, by omega⟩]
    simp
  have hrest := dropAll_windows content csn ovn hov content.length
    (0 + (csn - ovn)) (by omega)
  have hidx : 0 + (csn - ovn) + ovn = csn := by omega
  rw [hidx] at hrest
  have hdrop : dropOverlaps ((ovn : Int)).toNat
      (windows content csn (csn - ovn) 0) = content := by
    rw [Int.toNat_natCast, hwin0]
    show content.take csn ++ dropAll ovn
      (windows content csn (csn - ovn) (0 + (csn - ovn))) = content
    rw [hrest]
    exact List.take_append_drop csn content
  rw [Option.map_some', hdrop]

/-- Witness for C1: the amended coverage theorem instantiated at the
whitespace-free document `"abcd"` with `chunk_size = 2`, `overlap = 1`. -/
theorem chunk_coverage_witness :
    (0 : Int) < 1 ∧ (1 : Int) < 2 ∧
      (2 : Int) ≤ (['a', 'b', 'c', 'd'] : List Char).length ∧
      (chunk_document ['a', 'b', 'c', 'd'] (some 2) (some 1)).map
        (dropOverlaps (1 : Int).toNat) = some ['a', 'b', 'c', 'd'] :=
  ⟨by decide, by decide, by decide,
    chunk_coverage_whitespace_free ['a', 'b', 'c', 'd'] 2 1 (by decide)
      (by decide) (by decide) (by decide)⟩

end UniAI
